import Mathlib

/-!
Verification of the directbnb backend's promotion pricing and Stripe
checkout-completion handling, shallowly embedded from
`src/backend/src/apps/builder/models.py`,
`src/backend/src/apps/builder/api_views.py` and
`src/backend/src/apps/properties/views.py`.

Conventions of the embedding:
* calendar dates and timestamps are integers with the usual order;
* Python `Decimal` money amounts are rationals (`Package.amount` is a
  `DecimalField(decimal_places=2, max_digits=10)` and every product and
  quotient taken below stays far inside Decimal's 28-significant-digit
  context, so no rounding ever occurs in the code being modelled);
* a Python function that can raise returns `Option` (`none` = exception);
* database tables are lists of rows, and an ORM `update`/`save` is a pure
  function from the old table to the new one.
-/

/-- Dates (`datetime.date`) modelled as integers, ordered as dates are. -/
abbrev Date := Int

/-- Timestamps (`datetime.datetime`) modelled as integers. -/
abbrev DateTime := Int

/-- `Package` from `apps/builder/models.py`: a priced offering. -/
structure Package where
  name : String
  currency : String
  amount : ℚ
deriving DecidableEq, Repr

/-- `Promotion` from `apps/builder/models.py`. `units_available` is a
nullable `PositiveIntegerField`, hence `Option Nat`. -/
structure Promotion where
  package : Package
  discount_percentage : Nat
  units_available : Option Nat
  start_date : Date
  end_date : Date
deriving DecidableEq, Repr

/-- Python truthiness test `not self.units_available`: both `None` and `0`
are falsy. -/
def pyFalsy : Option Nat → Bool
  | none => true
  | some n => n == 0

/-- Python evaluation of `self.units_available < 0`. When the field is
`None` this is `None < 0`, which raises `TypeError` in Python 3, modelled
as `none`. -/
def pyLtZero : Option Nat → Option Bool
  | none => none
  | some n => some (decide ((n : Int) < 0))

/-- The guard `not self.units_available and self.units_available < 0` from
`Promotion.is_promotion_available`, with Python short-circuiting: the right
conjunct is evaluated only when the left one is truthy. -/
def unitsGuard (u : Option Nat) : Option Bool :=
  if pyFalsy u then pyLtZero u else some false

/-- `Promotion.is_promotion_available` (models.py lines 123-134). `today`
stands for `timezone.now().date()`. `start_date` and `end_date` are
non-null `DateField`s and `datetime.date` objects are always truthy, so
`self.start_date and today < self.start_date` reduces to the comparison.
A raised `TypeError` is modelled as `none`. -/
def Promotion.is_promotion_available (p : Promotion) (today : Date) : Option Bool := do
  let g ← unitsGuard p.units_available
  if g then
    return false
  if today < p.start_date then
    return false
  if today > p.end_date then
    return false
  return true

/-- `Promotion.get_discounted_amount` (models.py lines 136-145):
`amount *= (100 - Decimal(self.discount_percentage)) / 100` unless the
promotion is unavailable and `check_available` is set. -/
def Promotion.get_discounted_amount (p : Promotion) (check_available : Bool)
    (today : Date) : Option ℚ := do
  let amount := p.package.amount
  let avail ← p.is_promotion_available today
  if !avail && check_available then
    return amount
  return amount * ((100 - (p.discount_percentage : ℚ)) / 100)

/-- `Promotion.get_promotional_name` (models.py lines 147-156). -/
def Promotion.get_promotional_name (p : Promotion) (check_available : Bool)
    (today : Date) : Option String := do
  let name := p.package.name
  let avail ← p.is_promotion_available today
  if !avail && check_available then
    return name
  return name ++ " (" ++ toString p.discount_percentage ++ "% discount)"

/-- `BNBUser` (the `users` app custom user model), restricted to the
fields `create_user_from_lead` touches; `has_usable_password` records the
effect of `set_unusable_password()`. -/
structure BNBUser where
  email : String
  first_name : Option String
  last_name : Option String
  phone_number : Option String
  is_active : Bool
  is_email_confirmed : Bool
  has_usable_password : Bool
deriving DecidableEq, Repr

/-- `LeadRegistration` (models.py lines 180-216), restricted to the fields
the checkout-completion flow reads or writes. The `user` foreign key is
stored as the user's email, the key `get_or_create` works with. -/
structure LeadRegistration where
  id : Nat
  email : String
  first_name : Option String
  last_name : Option String
  phone_number : Option String
  user : Option String
  completed_at : Option DateTime
deriving DecidableEq, Repr

/-- Lead primary keys (UUIDs in the code). -/
abbrev LeadId := Nat

/-- `RegistrationOptions` (models.py lines 352-378): one cart line linking
a lead to a package and an optional promotion. -/
structure RegistrationOptions where
  lead_registration : LeadId
  promotion : Option Promotion
  package : Option Package
  paid_at : Option DateTime
  expires_at : Option DateTime
deriving DecidableEq, Repr

/-- `StripeWebhookPayload` (models.py lines 380-396): audit row for one
inbound webhook event. `payload` holds the decoded JSON of the request
body, represented by the body string itself. -/
structure StripeWebhookPayload where
  payload : String
  lead_registration : Option LeadId
  completed_at : Option DateTime
  processed_successfully : Bool
deriving DecidableEq, Repr

/-- The database tables the webhook flow touches. -/
structure DB where
  leads : List LeadRegistration
  registration_options : List RegistrationOptions
  users : List BNBUser
  webhook_payloads : List StripeWebhookPayload
deriving DecidableEq, Repr

/-- `lead_registration.registration_options.update(paid_at=datetime.now())`
(api_views.py line 262): set `paid_at` on every row whose foreign key is
the given lead, leaving every other row alone. -/
def updatePaidAt (opts : List RegistrationOptions) (lead : LeadId)
    (now : DateTime) : List RegistrationOptions :=
  opts.map fun o =>
    if o.lead_registration == lead then { o with paid_at := some now } else o

/-- `BNBUser.objects.get(email=...)` lookup underlying `get_or_create`. -/
def findUserByEmail (users : List BNBUser) (email : String) : Option BNBUser :=
  users.find? fun u => u.email == email

/-- The user row `get_or_create` inserts for a lead (its `defaults=`
mapping), after the subsequent `set_unusable_password()`. -/
def leadDefaultUser (lead : LeadRegistration) : BNBUser :=
  { email := lead.email, first_name := lead.first_name,
    last_name := lead.last_name, phone_number := lead.phone_number,
    is_active := true, is_email_confirmed := false,
    has_usable_password := false }

/-- `LeadRegistration.create_user_from_lead` (models.py lines 237-254):
`get_or_create` keyed on the lead's email with the lead's names and phone
as defaults; only when a row was created is the password made unusable and
the lead's `user` foreign key set and saved. -/
def LeadRegistration.create_user_from_lead (lead : LeadRegistration)
    (db : DB) : (BNBUser × Bool) × DB :=
  match findUserByEmail db.users lead.email with
  | some u => ((u, false), db)
  | none =>
    let u := leadDefaultUser lead
    let leads := db.leads.map fun l =>
      if l.id == lead.id then { l with user := some u.email } else l
    ((u, true), { db with users := db.users ++ [u], leads := leads })

/-- `StripeEventType.CHECKOUT_COMPLETED` from `apps/builder/schemas.py`. -/
def CHECKOUT_COMPLETED : String := "checkout.session.completed"

/-- The pydantic `StripeEvent` schema: an event type string and the
session's `client_reference_id` (the lead's primary key). -/
structure StripeEvent where
  type : String
  client_reference_id : LeadId
deriving DecidableEq, Repr

/-- `StripeEvent.get_lead_registration_id`. -/
def StripeEvent.get_lead_registration_id (e : StripeEvent) : LeadId :=
  e.client_reference_id

/-- `StripeWebhookView.handle_checkout_session_completed` (api_views.py
lines 253-300). `emailRaises` says whether
`send_payment_confirmation_email()` raises; either way the call changes
none of the modelled state (it renders and sends mail and refreshes a
token), and a raise is caught, logged and swallowed, so the result does
not depend on it. -/
def handle_checkout_session_completed (db : DB) (leadIdent : LeadId)
    (now : DateTime) (emailRaises : Bool) : (Bool × String) × DB :=
  match db.leads.find? (fun l => l.id == leadIdent) with
  | none => ((false, "Lead registration not found"), db)
  | some lead =>
    let db1 := { db with
      registration_options := updatePaidAt db.registration_options leadIdent now }
    let db2 := (lead.create_user_from_lead db1).2
    let _ := emailRaises
    ((true, "User created."), db2)

/-- Outcome of `stripe.Webhook.construct_event(body, sig, secret)`: the
payload decodes and the HMAC signature checks out, or a `ValueError`
(malformed payload) or a `SignatureVerificationError` is raised. The
cryptographic check itself lives in the Stripe SDK, so the outcome is part
of the request environment. -/
inductive ConstructEventOutcome
  | ok
  | valueError
  | signatureError
deriving DecidableEq, Repr

/-- One inbound webhook POST, as `StripeWebhookView` observes it. The
`model_validate` field is the outcome of
`StripeEvent.model_validate_json(payload)` (`none` = pydantic
`ValidationError`). -/
structure WebhookRequest where
  stripe_signature : Option String
  body : String
  construct_event : ConstructEventOutcome
  model_validate : Option StripeEvent
deriving DecidableEq, Repr

/-- `StripeWebhookView.validate_webhook_request` (api_views.py lines
302-321): reject when the `Stripe-Signature` header is absent or empty
(`if not sig_header`), or when `construct_event` raises. -/
def validate_webhook_request (req : WebhookRequest) : Bool × Option String :=
  match req.stripe_signature with
  | none => (false, some "No Stripe signature provided")
  | some s =>
    if s == "" then (false, some "No Stripe signature provided")
    else
      match req.construct_event with
      | .valueError => (false, some "Invalid payload.")
      | .signatureError => (false, some "Invalid signature.")
      | .ok => (true, none)

/-- `StripeWebhookView.post` (api_views.py lines 335-369), returning the
HTTP status code and the database after the request. The audit row is
created right after validation succeeds and saved again at the end of the
request; the net effect on the table is that single row in its final
state, which is how it is modelled. -/
def StripeWebhookView.post (db : DB) (req : WebhookRequest) (now : DateTime)
    (emailRaises : Bool) : Nat × DB :=
  match validate_webhook_request req with
  | (false, _err) => (400, db)
  | (true, _) =>
    let row0 : StripeWebhookPayload :=
      { payload := req.body, lead_registration := none,
        completed_at := none, processed_successfully := false }
    match req.model_validate with
    | none =>
      (400, { db with webhook_payloads := db.webhook_payloads ++ [row0] })
    | some ev =>
      let leadFound := db.leads.find? fun l => l.id == ev.get_lead_registration_id
      let row1 := { row0 with
        lead_registration := leadFound.map fun l : LeadRegistration => l.id }
      let hres :=
        if ev.type == CHECKOUT_COMPLETED then
          handle_checkout_session_completed db ev.get_lead_registration_id now emailRaises
        else
          ((true, "Unprocessed Stripe webhook event " ++ ev.type), db)
      let row2 := { row1 with
        completed_at := some now, processed_successfully := hres.1.1 }
      ((if hres.1.1 then 200 else 400),
        { hres.2 with webhook_payloads := hres.2.webhook_payloads ++ [row2] })

/-- The nine `save()` calls `PropertyUpdateView.form_valid` performs inside
`transaction.atomic()` (properties/views.py lines 163-196). Each Django
`form.save()` may raise, modelled as a map to `Option` on the database
state `σ`; the forms' internals are framework code, so the saves are
parameters. -/
structure PropertyForms (σ : Type) where
  saveProperty : σ → Option σ
  saveCoordinates : σ → Option σ
  saveRating : σ → Option σ
  saveHouseRules : σ → Option σ
  saveHost : σ → Option σ
  saveSubDescription : σ → Option σ
  saveImages : σ → Option σ
  saveLocations : σ → Option σ
  saveHighlights : σ → Option σ

/-- The body of the `with transaction.atomic():` block in `form_valid`:
the nine saves in source order, stopping at the first raise. -/
def propertySaves {σ : Type} (fs : PropertyForms σ) (s : σ) : Option σ := do
  let s ← fs.saveProperty s
  let s ← fs.saveCoordinates s
  let s ← fs.saveRating s
  let s ← fs.saveHouseRules s
  let s ← fs.saveHost s
  let s ← fs.saveSubDescription s
  let s ← fs.saveImages s
  let s ← fs.saveLocations s
  fs.saveHighlights s

/-- `transaction.atomic()`: if the block raises, every write made inside
it is rolled back, leaving the state from before the block; the exception
propagates (`false` in the result). -/
def atomic {σ : Type} (body : σ → Option σ) (s : σ) : σ × Bool :=
  match body s with
  | some s2 => (s2, true)
  | none => (s, false)

/-- `PropertyUpdateView.form_valid` (properties/views.py lines 135-201):
when the main form and every related form and formset validate, all nine
saves run inside a single `transaction.atomic()` block; otherwise nothing
is written. -/
def form_valid {σ : Type} (all_valid : Bool) (fs : PropertyForms σ)
    (s : σ) : σ × Bool :=
  if all_valid then atomic (propertySaves fs) s else (s, false)

/-- Sample package used for concrete witnesses. -/
def demoPackage : Package :=
  { name := "Builder Site", currency := "EUR", amount := 500 }

/-- A promotion that is available on day 10. -/
def demoPromo : Promotion :=
  { package := demoPackage, discount_percentage := 20,
    units_available := some 5, start_date := 0, end_date := 30 }

/-- A promotion whose date range has ended before day 10. -/
def demoPromoExpired : Promotion :=
  { package := demoPackage, discount_percentage := 20,
    units_available := some 5, start_date := 0, end_date := 3 }

/-- A promotion inside its date range but with zero remaining units. -/
def zeroUnitsPromo : Promotion :=
  { package := demoPackage, discount_percentage := 50,
    units_available := some 0, start_date := 0, end_date := 30 }

/-- A promotion whose `units_available` field is NULL. -/
def noneUnitsPromo : Promotion :=
  { package := demoPackage, discount_percentage := 10,
    units_available := none, start_date := 0, end_date := 30 }

/-- Demo lead used in witnesses. -/
def demoLead : LeadRegistration :=
  { id := 1, email := "ann@example.com", first_name := some "Ann",
    last_name := some "Lee", phone_number := none, user := none,
    completed_at := none }

/-- A second lead, untouched by the demo webhook. -/
def demoOtherLead : LeadRegistration :=
  { id := 2, email := "bob@example.com", first_name := none,
    last_name := none, phone_number := none, user := none,
    completed_at := none }

/-- First cart line of the demo lead. -/
def demoOptionA : RegistrationOptions :=
  { lead_registration := 1, promotion := some demoPromo,
    package := some demoPackage, paid_at := none, expires_at := none }

/-- Second cart line of the demo lead, same package as the first. -/
def demoOptionB : RegistrationOptions :=
  { lead_registration := 1, promotion := none,
    package := some demoPackage, paid_at := none, expires_at := some 99 }

/-- A cart line of the other lead. -/
def demoOptionC : RegistrationOptions :=
  { lead_registration := 2, promotion := none, package := none,
    paid_at := none, expires_at := none }

/-- Demo database state before a webhook arrives. -/
def demoDB : DB :=
  { leads := [demoLead, demoOtherLead],
    registration_options := [demoOptionA, demoOptionB, demoOptionC],
    users := [], webhook_payloads := [] }

/-- A request whose `Stripe-Signature` header is absent. -/
def demoBadReq : WebhookRequest :=
  { stripe_signature := none, body := "x", construct_event := .ok,
    model_validate := none }

/-- A checkout-completed event naming the demo lead. -/
def demoEvent : StripeEvent :=
  { type := "checkout.session.completed", client_reference_id := 1 }

/-- A well-signed, well-formed request carrying `demoEvent`. -/
def demoReq : WebhookRequest :=
  { stripe_signature := some "t=1,v1=abc", body := "raw-json",
    construct_event := .ok, model_validate := some demoEvent }

/-- Demo form set over `Nat` states whose seventh save (the image
formset) raises. -/
def demoForms : PropertyForms Nat :=
  { saveProperty := fun n => some (n + 1),
    saveCoordinates := fun n => some (n + 1),
    saveRating := fun n => some (n + 1),
    saveHouseRules := fun n => some (n + 1),
    saveHost := fun n => some (n + 1),
    saveSubDescription := fun n => some (n + 1),
    saveImages := fun _ => none,
    saveLocations := fun n => some (n + 1),
    saveHighlights := fun n => some (n + 1) }

/-- C1: with the default `check_available=True`, `get_discounted_amount`
returns `amount * (100 - discount_percentage) / 100` exactly whenever
`is_promotion_available()` returns true, and the unchanged package amount
whenever it returns false. -/
theorem C1_get_discounted_amount (p : Promotion) (today : Date) :
    (p.is_promotion_available today = some true →
      p.get_discounted_amount true today =
        some (p.package.amount * ((100 - (p.discount_percentage : ℚ)) / 100))) ∧
    (p.is_promotion_available today = some false →
      p.get_discounted_amount true today = some p.package.amount) := by
  constructor <;> intro h <;>
    simp [Promotion.get_discounted_amount, h]

/-- Witness for C1 at concrete promotions: one available on day 10, one
whose date range has expired by day 10. -/
theorem C1_get_discounted_amount_witness :
    demoPromo.get_discounted_amount true 10 =
      some (demoPromo.package.amount *
        ((100 - (demoPromo.discount_percentage : ℚ)) / 100)) ∧
    demoPromoExpired.get_discounted_amount true 10 =
      some demoPromoExpired.package.amount :=
  ⟨(C1_get_discounted_amount demoPromo 10).1 (by decide),
   (C1_get_discounted_amount demoPromoExpired 10).2 (by decide)⟩

/-- C3 counterexample: a promotion with `units_available = 0`, inside its
date range, is still reported available — `not units_available and
units_available < 0` evaluates to `0 == 0 and 0 < 0`, i.e. `False` — and
the 50% discount is still applied (500 becomes 250), contradicting the
claimed remaining-units check. -/
theorem C3_zero_units_counterexample :
    zeroUnitsPromo.units_available = some 0 ∧
    zeroUnitsPromo.is_promotion_available 10 = some true ∧
    zeroUnitsPromo.get_discounted_amount true 10 = some 250 ∧
    zeroUnitsPromo.package.amount = 500 := by
  refine ⟨rfl, rfl, ?_, ?_⟩ <;>
    norm_num [Promotion.get_discounted_amount, Promotion.is_promotion_available,
      zeroUnitsPromo, demoPackage, unitsGuard, pyFalsy, pyLtZero]

/-- C10: when `units_available` is NULL, the guard short-circuit evaluates
`None < 0`, so `is_promotion_available` raises `TypeError` and
`get_discounted_amount` and `get_promotional_name` (which call it before
consulting `check_available`) raise as well. -/
theorem C10_none_units_raises (p : Promotion) (today : Date) (ca : Bool)
    (h : p.units_available = none) :
    p.is_promotion_available today = none ∧
    p.get_discounted_amount ca today = none ∧
    p.get_promotional_name ca today = none := by
  have hg : unitsGuard p.units_available = none := by
    simp [unitsGuard, h, pyFalsy, pyLtZero]
  have ha : p.is_promotion_available today = none := by
    simp [Promotion.is_promotion_available, hg]
  exact ⟨ha, by simp [Promotion.get_discounted_amount, ha],
    by simp [Promotion.get_promotional_name, ha]⟩

/-- Witness for C10 at a concrete NULL-units promotion. -/
theorem C10_none_units_raises_witness :
    noneUnitsPromo.is_promotion_available 5 = none ∧
    noneUnitsPromo.get_discounted_amount true 5 = none ∧
    noneUnitsPromo.get_promotional_name true 5 = none :=
  C10_none_units_raises noneUnitsPromo 5 true rfl

/-- `create_user_from_lead` never touches the registration options table. -/
theorem create_user_from_lead_options (lead : LeadRegistration) (db : DB) :
    (lead.create_user_from_lead db).2.registration_options =
      db.registration_options := by
  unfold LeadRegistration.create_user_from_lead
  cases findUserByEmail db.users lead.email <;> rfl

/-- `create_user_from_lead` never touches the webhook payload table. -/
theorem create_user_from_lead_payloads (lead : LeadRegistration) (db : DB) :
    (lead.create_user_from_lead db).2.webhook_payloads =
      db.webhook_payloads := by
  unfold LeadRegistration.create_user_from_lead
  cases findUserByEmail db.users lead.email <;> rfl

/-- Characterisation of `create_user_from_lead` when the email is taken. -/
theorem create_user_found (lead : LeadRegistration) (db : DB) (u : BNBUser)
    (h : findUserByEmail db.users lead.email = some u) :
    lead.create_user_from_lead db = ((u, false), db) := by
  unfold LeadRegistration.create_user_from_lead
  rw [h]

/-- Characterisation of `create_user_from_lead` when the email is free. -/
theorem create_user_not_found (lead : LeadRegistration) (db : DB)
    (h : findUserByEmail db.users lead.email = none) :
    lead.create_user_from_lead db =
      ((leadDefaultUser lead, true),
       { db with
         users := db.users ++ [leadDefaultUser lead],
         leads := db.leads.map fun l => if l.id == lead.id then
           { l with user := some (leadDefaultUser lead).email } else l }) := by
  unfold LeadRegistration.create_user_from_lead
  rw [h]

/-- Appending the fresh user makes the email lookup find it. -/
theorem findUserByEmail_insert (users : List BNBUser)
    (lead : LeadRegistration)
    (h : findUserByEmail users lead.email = none) :
    findUserByEmail (users ++ [leadDefaultUser lead]) lead.email =
      some (leadDefaultUser lead) := by
  unfold findUserByEmail at h ⊢
  rw [List.find?_append, h]
  simp [leadDefaultUser]

/-- After `create_user_from_lead`, a user with the lead's email exists. -/
theorem create_user_from_lead_email_exists (lead : LeadRegistration)
    (db : DB) :
    ∃ u ∈ (lead.create_user_from_lead db).2.users, u.email = lead.email := by
  cases hf : findUserByEmail db.users lead.email with
  | none =>
    rw [create_user_not_found lead db hf]
    exact ⟨leadDefaultUser lead, by simp, rfl⟩
  | some u =>
    rw [create_user_found lead db u hf]
    unfold findUserByEmail at hf
    refine ⟨u, List.mem_of_find?_eq_some hf, ?_⟩
    simpa using List.find?_some hf

/-- When the lead exists, the handler reports success and leaves the
database after the paid-update followed by the get-or-create. -/
theorem handle_checkout_found (db : DB) (lid : LeadId) (now : DateTime)
    (er : Bool) (lead : LeadRegistration)
    (h : db.leads.find? (fun l => l.id == lid) = some lead) :
    handle_checkout_session_completed db lid now er =
      ((true, "User created."),
       (lead.create_user_from_lead
         { db with registration_options :=
             updatePaidAt db.registration_options lid now }).2) := by
  unfold handle_checkout_session_completed
  rw [h]

/-- The handler never touches the webhook payload table. -/
theorem handle_checkout_payloads (db : DB) (lid : LeadId) (now : DateTime)
    (er : Bool) :
    (handle_checkout_session_completed db lid now er).2.webhook_payloads =
      db.webhook_payloads := by
  unfold handle_checkout_session_completed
  cases db.leads.find? (fun l => l.id == lid) with
  | none => rfl
  | some lead => exact create_user_from_lead_payloads lead _

/-- C2: when the `checkout.session.completed` event names an existing
lead, the handler sets `paid_at` to the current time on every
`RegistrationOptions` row linked to that lead — all of the lead's rows,
not only the latest per package. -/
theorem C2_marks_all_lead_options_paid (db : DB) (lid : LeadId)
    (now : DateTime) (er : Bool) (lead : LeadRegistration)
    (h : db.leads.find? (fun l => l.id == lid) = some lead) :
    (handle_checkout_session_completed db lid now er).2.registration_options =
      updatePaidAt db.registration_options lid now ∧
    ∀ o ∈ (handle_checkout_session_completed db lid now er).2.registration_options,
      o.lead_registration = lid → o.paid_at = some now := by
  have hopt :
      (handle_checkout_session_completed db lid now er).2.registration_options =
        updatePaidAt db.registration_options lid now := by
    rw [handle_checkout_found db lid now er lead h]
    exact create_user_from_lead_options lead _
  refine ⟨hopt, ?_⟩
  intro o ho hol
  rw [hopt] at ho
  simp only [updatePaidAt, List.mem_map] at ho
  obtain ⟨a, _ha, hfa⟩ := ho
  cases hb : a.lead_registration == lid with
  | true => rw [← hfa]; simp [hb]
  | false =>
    rw [← hfa] at hol
    rw [if_neg (by simp [hb])] at hol
    rw [hol] at hb
    simp at hb

/-- Witness for C2 on the demo database: lead 1 has two cart lines and
both get `paid_at` stamped. -/
theorem C2_marks_all_lead_options_paid_witness :
    (handle_checkout_session_completed demoDB 1 100 false).2.registration_options =
      updatePaidAt demoDB.registration_options 1 100 ∧
    ∀ o ∈ (handle_checkout_session_completed demoDB 1 100 false).2.registration_options,
      o.lead_registration = 1 → o.paid_at = some 100 :=
  C2_marks_all_lead_options_paid demoDB 1 100 false demoLead rfl

/-- C9: the paid-marking update preserves the number of rows; on each row
it leaves `lead_registration`, `promotion`, `package` and `expires_at`
unchanged; and a row of any other lead is entirely unchanged. -/
theorem C9_updatePaidAt_frame (opts : List RegistrationOptions)
    (lead : LeadId) (now : DateTime) (i : Nat) (o : RegistrationOptions)
    (h : opts[i]? = some o) :
    (updatePaidAt opts lead now).length = opts.length ∧
    ∃ o2, (updatePaidAt opts lead now)[i]? = some o2 ∧
      o2.lead_registration = o.lead_registration ∧
      o2.promotion = o.promotion ∧
      o2.package = o.package ∧
      o2.expires_at = o.expires_at ∧
      (o.lead_registration ≠ lead → o2 = o) := by
  refine ⟨List.length_map _ _, ?_⟩
  refine ⟨if o.lead_registration == lead then
    { o with paid_at := some now } else o, ?_, ?_⟩
  · simp only [updatePaidAt]
    rw [List.getElem?_map, h]
    rfl
  · by_cases hb : o.lead_registration = lead
    · rw [if_pos (by simpa using hb)]
      exact ⟨rfl, rfl, rfl, rfl, fun hne => absurd hb hne⟩
    · rw [if_neg (by simpa using hb)]
      exact ⟨rfl, rfl, rfl, rfl, fun _ => rfl⟩

/-- Witness for C9: in a two-row table, the row of lead 2 is untouched by
marking lead 1 paid. -/
theorem C9_updatePaidAt_frame_witness :
    (updatePaidAt [demoOptionA, demoOptionC] 1 100).length =
      [demoOptionA, demoOptionC].length ∧
    ∃ o2, (updatePaidAt [demoOptionA, demoOptionC] 1 100)[1]? = some o2 ∧
      o2.lead_registration = demoOptionC.lead_registration ∧
      o2.promotion = demoOptionC.promotion ∧
      o2.package = demoOptionC.package ∧
      o2.expires_at = demoOptionC.expires_at ∧
      (demoOptionC.lead_registration ≠ 1 → o2 = demoOptionC) :=
  C9_updatePaidAt_frame [demoOptionA, demoOptionC] 1 100 1 demoOptionC rfl

/-- C5: a webhook POST with a missing `Stripe-Signature` header, a
malformed payload (`ValueError`), or a failing HMAC check
(`SignatureVerificationError`) is answered 400 Bad Request with an error
message and leaves every table untouched. -/
theorem C5_invalid_webhook_rejected (db : DB) (req : WebhookRequest)
    (now : DateTime) (er : Bool)
    (h : req.stripe_signature = none ∨
         req.construct_event = ConstructEventOutcome.valueError ∨
         req.construct_event = ConstructEventOutcome.signatureError) :
    StripeWebhookView.post db req now er = (400, db) ∧
    ∃ msg, (validate_webhook_request req).2 = some msg := by
  have hv : ∃ msg, validate_webhook_request req = (false, some msg) := by
    rcases h with h | h | h
    · exact ⟨"No Stripe signature provided",
        by simp [validate_webhook_request, h]⟩
    · cases hs : req.stripe_signature with
      | none => exact ⟨"No Stripe signature provided",
          by simp [validate_webhook_request, hs]⟩
      | some s =>
        by_cases he : s == ""
        · exact ⟨"No Stripe signature provided",
            by simp [validate_webhook_request, hs, he]⟩
        · exact ⟨"Invalid payload.",
            by simp [validate_webhook_request, hs, h, he]⟩
    · cases hs : req.stripe_signature with
      | none => exact ⟨"No Stripe signature provided",
          by simp [validate_webhook_request, hs]⟩
      | some s =>
        by_cases he : s == ""
        · exact ⟨"No Stripe signature provided",
            by simp [validate_webhook_request, hs, he]⟩
        · exact ⟨"Invalid signature.",
            by simp [validate_webhook_request, hs, h, he]⟩
  obtain ⟨msg, hm⟩ := hv
  constructor
  · unfold StripeWebhookView.post
    rw [hm]
  · rw [hm]; exact ⟨msg, rfl⟩

/-- Witness for C5: the unsigned request bounces off the demo database. -/
theorem C5_invalid_webhook_rejected_witness :
    StripeWebhookView.post demoDB demoBadReq 100 false = (400, demoDB) ∧
    ∃ msg, (validate_webhook_request demoBadReq).2 = some msg :=
  C5_invalid_webhook_rejected demoDB demoBadReq 100 false (Or.inl rfl)

/-- C4: if the confirmation email raises after payment was recorded, the
handler still returns success (`True` with "User created."), the webhook
still answers 200, and neither the `paid_at` stamps nor the created user
are rolled back or compensated. -/
theorem C4_email_failure_swallowed (db : DB) (lid : LeadId) (now : DateTime)
    (lead : LeadRegistration) (req : WebhookRequest) (ev : StripeEvent)
    (hlead : db.leads.find? (fun l => l.id == lid) = some lead)
    (hval : validate_webhook_request req = (true, none))
    (hparse : req.model_validate = some ev)
    (htype : ev.type = CHECKOUT_COMPLETED)
    (hid : ev.client_reference_id = lid) :
    (handle_checkout_session_completed db lid now true).1 =
      (true, "User created.") ∧
    (handle_checkout_session_completed db lid now true).2.registration_options =
      updatePaidAt db.registration_options lid now ∧
    (∃ u ∈ (handle_checkout_session_completed db lid now true).2.users,
      u.email = lead.email) ∧
    (StripeWebhookView.post db req now true).1 = 200 := by
  have hh := handle_checkout_found db lid now true lead hlead
  refine ⟨by rw [hh], ?_, ?_, ?_⟩
  · rw [hh]; exact create_user_from_lead_options lead _
  · rw [hh]; exact create_user_from_lead_email_exists lead _
  · have hb : (ev.type == CHECKOUT_COMPLETED) = true := by simp [htype]
    have hgid : ev.get_lead_registration_id = lid := hid
    unfold StripeWebhookView.post
    rw [hval, hparse]
    simp [hb, hgid, hh]

/-- Witness for C4 on the demo database and request, with the email step
raising. -/
theorem C4_email_failure_swallowed_witness :
    (handle_checkout_session_completed demoDB 1 100 true).1 =
      (true, "User created.") ∧
    (handle_checkout_session_completed demoDB 1 100 true).2.registration_options =
      updatePaidAt demoDB.registration_options 1 100 ∧
    (∃ u ∈ (handle_checkout_session_completed demoDB 1 100 true).2.users,
      u.email = demoLead.email) ∧
    (StripeWebhookView.post demoDB demoReq 100 true).1 = 200 :=
  C4_email_failure_swallowed demoDB 1 100 demoLead demoReq demoEvent
    rfl rfl rfl rfl rfl

/-- C6: `create_user_from_lead` is an email-keyed get-or-create: a second
run returns the same user, reports `created = false` and changes nothing;
a first run that finds the email taken changes nothing either; and only a
freshly created user has its password made unusable and is linked back
onto the lead. -/
theorem C6_create_user_idempotent (lead : LeadRegistration) (db : DB) :
    (lead.create_user_from_lead ((lead.create_user_from_lead db).2)).1.1 =
      (lead.create_user_from_lead db).1.1 ∧
    (lead.create_user_from_lead ((lead.create_user_from_lead db).2)).1.2 =
      false ∧
    (lead.create_user_from_lead ((lead.create_user_from_lead db).2)).2 =
      (lead.create_user_from_lead db).2 ∧
    ((lead.create_user_from_lead db).1.2 = false →
      (lead.create_user_from_lead db).2 = db) ∧
    ((lead.create_user_from_lead db).1.2 = true →
      (lead.create_user_from_lead db).1.1.has_usable_password = false ∧
      (lead.create_user_from_lead db).2.leads =
        db.leads.map fun l => if l.id == lead.id then
          { l with user := some (lead.create_user_from_lead db).1.1.email }
          else l) := by
  cases hf : findUserByEmail db.users lead.email with
  | some u =>
    have h1 := create_user_found lead db u hf
    simp [h1]
  | none =>
    have h1 := create_user_not_found lead db hf
    have h2 : findUserByEmail ((lead.create_user_from_lead db).2).users
        lead.email = some (leadDefaultUser lead) := by
      rw [h1]
      exact findUserByEmail_insert db.users lead hf
    have h3 := create_user_found lead ((lead.create_user_from_lead db).2)
      (leadDefaultUser lead) h2
    refine ⟨?_, ?_, ?_, ?_, ?_⟩
    · rw [h3, h1]
    · rw [h3]
    · rw [h3]
    · rw [h1]; intro hc; simp at hc
    · rw [h1]; intro _; exact ⟨rfl, rfl⟩

/-- Witness for C6 on the demo database (no users yet): the first run
creates Ann's account, the second returns it unchanged. -/
theorem C6_create_user_idempotent_witness :
    (demoLead.create_user_from_lead ((demoLead.create_user_from_lead demoDB).2)).1.1 =
      (demoLead.create_user_from_lead demoDB).1.1 ∧
    (demoLead.create_user_from_lead ((demoLead.create_user_from_lead demoDB).2)).1.2 =
      false ∧
    (demoLead.create_user_from_lead ((demoLead.create_user_from_lead demoDB).2)).2 =
      (demoLead.create_user_from_lead demoDB).2 ∧
    ((demoLead.create_user_from_lead demoDB).1.2 = false →
      (demoLead.create_user_from_lead demoDB).2 = demoDB) ∧
    ((demoLead.create_user_from_lead demoDB).1.2 = true →
      (demoLead.create_user_from_lead demoDB).1.1.has_usable_password = false ∧
      (demoLead.create_user_from_lead demoDB).2.leads =
        demoDB.leads.map fun l => if l.id == demoLead.id then
          { l with user := some (demoLead.create_user_from_lead demoDB).1.1.email }
          else l) :=
  C6_create_user_idempotent demoLead demoDB

/-- C8: every POST that passes signature verification appends exactly one
audit row holding the request payload; its `processed_successfully` flag
equals the dispatched handler's success bit, and the row is present with
the flag false when pydantic event validation fails. -/
theorem C8_audit_row (db : DB) (req : WebhookRequest) (now : DateTime)
    (er : Bool) (s : String)
    (hsig : req.stripe_signature = some s) (hne : s ≠ "")
    (hok : req.construct_event = ConstructEventOutcome.ok) :
    ∃ row : StripeWebhookPayload,
      (StripeWebhookView.post db req now er).2.webhook_payloads =
        db.webhook_payloads ++ [row] ∧
      row.payload = req.body ∧
      (req.model_validate = none → row.processed_successfully = false) ∧
      (∀ ev, req.model_validate = some ev →
        row.processed_successfully =
          (if ev.type == CHECKOUT_COMPLETED then
            (handle_checkout_session_completed db
              ev.get_lead_registration_id now er).1.1
          else true)) := by
  have hval : validate_webhook_request req = (true, none) := by
    simp [validate_webhook_request, hsig, hok, hne]
  cases hmv : req.model_validate with
  | none =>
    refine ⟨{ payload := req.body, lead_registration := none,
              completed_at := none, processed_successfully := false },
           ?_, rfl, fun _ => rfl, ?_⟩
    · unfold StripeWebhookView.post
      rw [hval, hmv]
    · intro ev hev
      simp at hev
  | some ev0 =>
    refine ⟨{ payload := req.body,
              lead_registration := (db.leads.find? fun l =>
                l.id == ev0.get_lead_registration_id).map
                  fun l : LeadRegistration => l.id,
              completed_at := some now,
              processed_successfully :=
                if ev0.type == CHECKOUT_COMPLETED then
                  (handle_checkout_session_completed db
                    ev0.get_lead_registration_id now er).1.1
                else true },
           ?_, rfl, ?_, ?_⟩
    · unfold StripeWebhookView.post
      rw [hval, hmv]
      by_cases hc : ev0.type == CHECKOUT_COMPLETED
      · simp [hc, handle_checkout_payloads]
      · simp [hc]
    · intro h0
      simp at h0
    · intro ev hev
      injection hev with h4
      subst h4
      rfl

/-- Witness for C8: the demo request appends one audit row to the demo
database. -/
theorem C8_audit_row_witness :
    ∃ row : StripeWebhookPayload,
      (StripeWebhookView.post demoDB demoReq 100 false).2.webhook_payloads =
        demoDB.webhook_payloads ++ [row] ∧
      row.payload = demoReq.body ∧
      (demoReq.model_validate = none → row.processed_successfully = false) ∧
      (∀ ev, demoReq.model_validate = some ev →
        row.processed_successfully =
          (if ev.type == CHECKOUT_COMPLETED then
            (handle_checkout_session_completed demoDB
              ev.get_lead_registration_id 100 false).1.1
          else true)) :=
  C8_audit_row demoDB demoReq 100 false "t=1,v1=abc" rfl (by decide) rfl

/-- C7: when every form validates, the nine saves of
`PropertyUpdateView.form_valid` run inside one `transaction.atomic()`
block: if any save raises, the state is exactly the one from before the
block (no write persists); if none raises, the fully saved state comes
out. -/
theorem C7_form_valid_atomic {σ : Type} (fs : PropertyForms σ) (s : σ) :
    (propertySaves fs s = none → form_valid true fs s = (s, false)) ∧
    (∀ s2, propertySaves fs s = some s2 →
      form_valid true fs s = (s2, true)) := by
  constructor
  · intro h
    simp [form_valid, atomic, h]
  · intro s2 h
    simp [form_valid, atomic, h]

/-- Witness for C7: with the image formset raising, the `Nat` state 0 is
returned unchanged. -/
theorem C7_form_valid_atomic_witness :
    form_valid true demoForms 0 = (0, false) :=
  (C7_form_valid_atomic demoForms 0).1 rfl
